import Mathlib

/-!
Shallow embedding of the zoushoapp core (Next.js route handlers over a
Google-Sheets store) and proofs about it.

Sources embedded:
- src/app/api/lending/route.ts and src/unnamed/part_005 (borrow POST,
  return PUT, reminder-sweep GET, getJstDateString, sendSlackNotification)
- src/app/api/register/route.ts (register POST)
- src/app/api/books/route.ts (metadata resolution GET, fetchWithRetry,
  fetchFromGoogleBooks, fetchFromOpenBD, fetchFromInventory)
- src/unnamed/part_004 (book-status list GET, lendingMap)

Modelling conventions: sheet rows are records of Strings (the sheet stores
strings; an empty string is the JS falsy case of a missing cell), the
append-only collections are Lean lists in append order, `new Date()` /
uuidv4 / session identity / provider responses / notification-channel
outcomes are explicit parameters, and a calendar date in the fixed
Asia/Tokyo civil calendar is a `CDate`.  JavaScript
`date.setDate(date.getDate() + n)` day arithmetic (which normalizes
day-of-month overflow across month and year boundaries) is `setDatePlus n`.
-/

namespace Zousho

/-- A civil calendar date (the Asia/Tokyo date a JS `Date` formats to via
`Intl.DateTimeFormat` with `timeZone: 'Asia/Tokyo'`). -/
structure CDate where
  year : Nat
  month : Nat
  day : Nat
deriving Repr, DecidableEq

/-- Gregorian leap-year rule, as implemented by the JS `Date` calendar. -/
def isLeap (y : Nat) : Bool :=
  (y % 4 == 0 && y % 100 != 0) || y % 400 == 0

/-- Length of month `m` of year `y` in the Gregorian calendar. -/
def daysInMonth (y m : Nat) : Nat :=
  if m = 2 then (if isLeap y then 29 else 28)
  else if m = 4 ∨ m = 6 ∨ m = 9 ∨ m = 11 then 30
  else 31

/-- A well-formed calendar date. -/
def ValidDate (d : CDate) : Prop :=
  1 ≤ d.month ∧ d.month ≤ 12 ∧ 1 ≤ d.day ∧ d.day ≤ daysInMonth d.year d.month

instance : DecidablePred ValidDate := fun d => by
  unfold ValidDate; infer_instance

/-- The calendar successor of a date: the next day in the civil calendar. -/
def nextDay (d : CDate) : CDate :=
  if d.day < daysInMonth d.year d.month then ⟨d.year, d.month, d.day + 1⟩
  else if d.month < 12 then ⟨d.year, d.month + 1, 1⟩
  else ⟨d.year + 1, 1, 1⟩

/-- Day-of-month overflow normalization performed by JS `Date.setDate`:
while the day exceeds the current month length, subtract the month length
and advance the month (rolling the year at December).  The first argument
is recursion fuel; `n + 2` units suffice for an overflow of `n` days. -/
def normDate : Nat → Nat → Nat → Nat → CDate
  | 0, y, m, d => ⟨y, m, d⟩
  | fuel + 1, y, m, d =>
    if d ≤ daysInMonth y m then ⟨y, m, d⟩
    else if m < 12 then normDate fuel y (m + 1) (d - daysInMonth y m)
    else normDate fuel (y + 1) 1 (d - daysInMonth y m)

/-- JS `t.setDate(t.getDate() + n)` on a `Date` holding civil date `d`:
set the day-of-month to `d.day + n` and normalize the overflow. -/
def setDatePlus (n : Nat) (d : CDate) : CDate :=
  normDate (n + 2) d.year d.month (d.day + n)

/-- Zero-padded 2-digit numeral, as produced by `month: '2-digit'`. -/
def pad2 (n : Nat) : String :=
  if n < 10 then "0" ++ toString n else toString n

/-- `getJstDateString`: format a civil date as `YYYY-MM-DD`
(`Intl.DateTimeFormat('ja-JP', ...)` output with `/` replaced by `-`). -/
def getJstDateString (d : CDate) : String :=
  toString d.year ++ "-" ++ pad2 d.month ++ "-" ++ pad2 d.day

/-- JS `s || d` for string-valued fields (empty string is falsy). -/
def strOr (s d : String) : String := if s = "" then d else s

/-- One row of the `transactions` sheet (a `LoanRecord`); every cell is a
string, `returnedAt = ""` while the loan is open. -/
structure LoanRecord where
  id : String
  isbn : String
  title : String
  borrowedAt : String
  dueAt : String
  borrowerName : String
  borrowerEmail : String
  borrowerGroup : String
  returnedAt : String
deriving Repr, DecidableEq

/-- One row of the inventory sheet (a `CatalogEntry`). -/
structure CatalogEntry where
  id : String
  isbn : String
  title : String
  authors : String
  publishedDate : String
  image : String
  status : String
  registeredAt : String
deriving Repr, DecidableEq

/-- Error conditions surfaced by the lending handlers. -/
inductive LendError where
  | unauthorized
  | validation
  | notLent
deriving Repr, DecidableEq

/-- Outcome of one attempt to deliver on the chat-webhook channel (the
`fetch` to the Slack webhook URL): either it resolves, or it throws. -/
inductive ChannelOutcome where
  | delivered
  | networkError
deriving Repr, DecidableEq

/-- What `sendSlackNotification` did, as observable by a log reader. -/
inductive NotifyLog where
  | notAttempted
  | skipped
  | sent
  | loggedError
deriving Repr, DecidableEq

/-- `sendSlackNotification`: returns immediately when no webhook URL is
configured; otherwise posts to the webhook inside a `try`/`catch` whose
`catch` only calls `console.error` — a channel failure is logged and the
function still returns normally. -/
def sendSlackNotification (webhookConfigured : Bool) (channel : ChannelOutcome) :
    NotifyLog :=
  if !webhookConfigured then .skipped
  else
    match channel with
    | .delivered => .sent
    | .networkError => .loggedError

/-- Result of the borrow POST handler: the `transactions` sheet after the
request, the HTTP-level response, and what the notification send did. -/
structure BorrowResult where
  ledger : List LoanRecord
  response : Except LendError LoanRecord
  notify : NotifyLog
deriving Repr

/-- Borrow POST (src/unnamed/part_005 lines 123-177).  Session identity
(`userEmail`, `userName`), the request body fields, the generated uuid and
today's civil date are parameters.  Appends one open row; there is no scan
of existing rows for the same isbn. -/
def borrow (ledger : List LoanRecord)
    (userEmail userName isbn title borrowerGroup newId : String)
    (today : CDate) (webhookConfigured : Bool) (channel : ChannelOutcome) :
    BorrowResult :=
  if userEmail = "" then ⟨ledger, .error .unauthorized, .notAttempted⟩
  else if isbn = "" ∨ borrowerGroup = "" then ⟨ledger, .error .validation, .notAttempted⟩
  else
    let borrowedAt := getJstDateString today
    let dueAt := getJstDateString (setDatePlus 14 today)
    let newRow : LoanRecord :=
      { id := newId
        isbn := isbn
        title := strOr title "タイトル不明"
        borrowedAt := borrowedAt
        dueAt := dueAt
        borrowerName := strOr userName "氏名不明"
        borrowerEmail := userEmail
        borrowerGroup := borrowerGroup
        returnedAt := "" }
    ⟨ledger ++ [newRow], .ok newRow, sendSlackNotification webhookConfigured channel⟩

/-- The predicate of the return handler's row search:
`row.get('isbn') === isbn && !row.get('returnedAt')`. -/
def isOpenFor (isbn : String) (r : LoanRecord) : Bool :=
  r.isbn == isbn && r.returnedAt == ""

/-- `rows.reverse().find(...)`: the open row for `isbn` that is last in
append order, together with its (original) row index — the index models the
row object reference that `targetRow.save()` writes back through. -/
def findLastOpen : List LoanRecord → String → Option (Nat × LoanRecord)
  | [], _ => none
  | r :: rest, isbn =>
    match findLastOpen rest isbn with
    | some (i, x) => some (i + 1, x)
    | none => if isOpenFor isbn r then some (0, r) else none

/-- Result of the return PUT handler. -/
structure ReturnResult where
  ledger : List LoanRecord
  response : Except LendError (String × String)
  notify : NotifyLog
deriving Repr

/-- Return PUT (src/unnamed/part_005 lines 182-233).  Finds the last open
row for the isbn scanning from the end; 404 with no write when none exists;
otherwise writes today's date into that row's `returnedAt` and answers with
the row's title and borrower name. -/
def returnItem (ledger : List LoanRecord) (isbn : String) (today : CDate)
    (webhookConfigured : Bool) (channel : ChannelOutcome) : ReturnResult :=
  if isbn = "" then ⟨ledger, .error .validation, .notAttempted⟩
  else
    match findLastOpen ledger isbn with
    | none => ⟨ledger, .error .notLent, .notAttempted⟩
    | some (i, r) =>
      let bookTitle := strOr r.title "タイトル不明"
      let borrowerName := strOr r.borrowerName "氏名不明"
      ⟨ledger.set i { r with returnedAt := getJstDateString today },
       .ok (bookTitle, borrowerName),
       sendSlackNotification webhookConfigured channel⟩

/-- Error conditions of the register handler. -/
inductive RegisterError where
  | validation
  | conflict
deriving Repr, DecidableEq

/-- The `authors` body field may arrive as a JSON array or as a string
(`Array.isArray(authors) ? authors.join(', ') : authors`). -/
inductive JsonStrOrArr where
  | arr (xs : List String)
  | str (s : String)
deriving Repr, DecidableEq

/-- `Array.isArray(authors) ? authors.join(', ') : authors`. -/
def joinAuthors : JsonStrOrArr → String
  | .arr xs => String.intercalate ", " xs
  | .str s => s

/-- Register POST (src/app/api/register/route.ts lines 22-71).  Validates
isbn and title, scans the full catalog for a row with the same isbn
(verbatim comparison), answers 409 before any write on a hit, otherwise
appends the new entry. -/
def register (catalog : List CatalogEntry) (isbn title : String)
    (authors : JsonStrOrArr) (publishedDate thumbnailUrl newId registeredAt : String) :
    List CatalogEntry × Except RegisterError CatalogEntry :=
  if isbn = "" ∨ title = "" then (catalog, .error .validation)
  else if catalog.any (fun row => row.isbn == isbn) then (catalog, .error .conflict)
  else
    let newRow : CatalogEntry :=
      { id := newId
        isbn := isbn
        title := title
        authors := joinAuthors authors
        publishedDate := publishedDate
        image := thumbnailUrl
        status := "available"
        registeredAt := registeredAt }
    (catalog ++ [newRow], .ok newRow)

/-- One reminder email queued by the sweep. -/
structure ReminderMail where
  email : String
  name : String
  title : String
  dueAt : String
deriving Repr, DecidableEq

/-- The sweep's selection (lending GET, lines 176-188 of the reminder
handler): open rows whose `dueAt` equals the formatted date two days from
today. -/
def sweepTargets (ledger : List LoanRecord) (today : CDate) : List LoanRecord :=
  let targetDateString := getJstDateString (setDatePlus 2 today)
  ledger.filter (fun row => row.returnedAt == "" && row.dueAt == targetDateString)

/-- The sweep's send loop (lines 203-222): one mail per selected row that
has a borrower email; rows with `borrowerEmail = ""` are skipped
(`if (!email) continue`). -/
def runReminderSweep (ledger : List LoanRecord) (today : CDate) :
    List ReminderMail :=
  (sweepTargets ledger today).filterMap fun row =>
    if row.borrowerEmail == "" then none
    else some { email := row.borrowerEmail
                name := row.borrowerName
                title := row.title
                dueAt := row.dueAt }

/-- The open-loan detail the status list surfaces per isbn. -/
structure LendingInfo where
  dueAt : String
  borrowerName : String
deriving Repr, DecidableEq

/-- JS `Map.set`: replace the value at an existing key in place, else
append the binding. -/
def mapSet : List (String × LendingInfo) → String → LendingInfo →
    List (String × LendingInfo)
  | [], k, v => [(k, v)]
  | (k', v') :: rest, k, v =>
    if k' = k then (k, v) :: rest else (k', v') :: mapSet rest k v

/-- JS `Map.get`. -/
def mapGet (m : List (String × LendingInfo)) (k : String) : Option LendingInfo :=
  (m.find? fun p => p.1 == k).map fun p => p.2

/-- One step of the `transactionRows.forEach` that builds `lendingMap`
(src/unnamed/part_004 lines 87-102): open rows with a nonempty isbn set the
map entry, so a later open row for the same isbn overwrites an earlier one. -/
def lendingStep (m : List (String × LendingInfo)) (row : LoanRecord) :
    List (String × LendingInfo) :=
  if row.isbn != "" && row.returnedAt == "" then
    mapSet m row.isbn ⟨row.dueAt, row.borrowerName⟩
  else m

/-- The isbn → open-loan lookup built in a single pass over the ledger. -/
def buildLendingMap (rows : List LoanRecord) : List (String × LendingInfo) :=
  rows.foldl lendingStep []

/-- One element of the status list the books-list GET returns. -/
structure BookStatus where
  isbn : String
  title : String
  authors : String
  thumbnailUrl : String
  status : String
  lendingDetail : Option LendingInfo
deriving Repr, DecidableEq

/-- The per-catalog-row projection of the books-list GET
(src/unnamed/part_004 lines 104-119). -/
def bookEntry (lmap : List (String × LendingInfo)) (row : CatalogEntry) :
    BookStatus :=
  let lendingInfo := mapGet lmap row.isbn
  { isbn := row.isbn
    title := row.title
    authors := row.authors
    thumbnailUrl := row.image
    status := match lendingInfo with | some _ => "lent" | none => "available"
    lendingDetail := lendingInfo }

/-- The books-list GET (`listStatus`): join the catalog with the open-loan
map, then present most-recently-registered first (`books.reverse()`). -/
def listBooks (catalog : List CatalogEntry) (rows : List LoanRecord) :
    List BookStatus :=
  (catalog.map (bookEntry (buildLendingMap rows))).reverse

/- ===== Metadata resolver (src/app/api/books/route.ts) ===== -/

/-- `const TIMEOUT_MS = 3000` — the per-call `AbortController` timeout. -/
def TIMEOUT_MS : Nat := 3000

/-- `const MAX_RETRIES = 1` — one retry after the initial attempt. -/
def MAX_RETRIES : Nat := 1

/-- Outcome of one `fetchWithTimeout` call: the resolved response, or a
thrown error (timeout abort or transport failure). -/
inductive FetchOutcome (α : Type) where
  | ok (resp : α)
  | fail
deriving Repr, DecidableEq

/-- The `for (let i = 0; i <= MAX_RETRIES; i++)` loop of `fetchWithRetry`:
`att i` is the outcome of attempt number `i`.  Returns the first successful
response plus the number of attempts performed; `none` means every attempt
threw and the last error is re-thrown. -/
def fetchRetryLoop {α : Type} (att : Nat → FetchOutcome α) :
    Nat → Nat → Option α × Nat
  | i, 0 => (none, i)
  | i, rem + 1 =>
    match att i with
    | .ok r => (some r, i + 1)
    | .fail => fetchRetryLoop att (i + 1) rem

/-- `fetchWithRetry` (lines 91-102): up to `MAX_RETRIES + 1` attempts. -/
def fetchWithRetry {α : Type} (att : Nat → FetchOutcome α) : Option α × Nat :=
  fetchRetryLoop att 0 (MAX_RETRIES + 1)

/-- Where a resolved `BookData` came from. -/
inductive Source where
  | googleBooks
  | openBD
  | inventory
deriving Repr, DecidableEq

/-- The resolver's fully-populated output type. -/
structure BookData where
  isbn : String
  title : String
  authors : List String
  publishedDate : String
  thumbnailUrl : String
  source : Source
deriving Repr, DecidableEq

/-- `volumeInfo` of the first Google Books item; string fields use `""`
for JS absent/falsy, the authors array is present or absent. -/
structure GoogleVolume where
  title : String
  authors : Option (List String)
  publishedDate : String
  thumbnail : String
deriving Repr, DecidableEq

/-- A resolved Google Books HTTP response: `res.ok` plus the parsed items
(`!data.items || data.items.length === 0` collapses to the empty list). -/
structure GoogleResp where
  ok : Bool
  items : List GoogleVolume
deriving Repr, DecidableEq

/-- `fetchFromGoogleBooks` (lines 105-128): retry-wrapped fetch, `null` on
a thrown error (caught), a non-ok status, or an empty item list; otherwise
the first item shaped with placeholder defaults.  Also returns how many
fetch attempts were made. -/
def fetchFromGoogleBooks (isbn : String) (att : Nat → FetchOutcome GoogleResp) :
    Option BookData × Nat :=
  match fetchWithRetry att with
  | (none, n) => (none, n)
  | (some resp, n) =>
    if !resp.ok then (none, n)
    else
      match resp.items with
      | [] => (none, n)
      | v :: _ =>
        (some { isbn := isbn
                title := strOr v.title "タイトル不明"
                authors := v.authors.getD ["著者不明"]
                publishedDate := v.publishedDate
                thumbnailUrl := v.thumbnail
                source := .googleBooks }, n)

/-- The `summary` object of an OpenBD entry. -/
structure OpenBDSummary where
  title : String
  author : String
  pubdate : String
  cover : String
deriving Repr, DecidableEq

/-- A resolved OpenBD HTTP response: `res.ok` plus the parsed JSON array;
OpenBD answers `[null]` for a well-formed no-match. -/
structure OpenBDResp where
  ok : Bool
  entries : List (Option OpenBDSummary)
deriving Repr, DecidableEq

/-- `fetchFromOpenBD` (lines 131-156): retry-wrapped fetch, `null` on a
thrown error, non-ok status, empty array or `[null]`; otherwise the first
summary shaped with placeholder defaults. -/
def fetchFromOpenBD (isbn : String) (att : Nat → FetchOutcome OpenBDResp) :
    Option BookData × Nat :=
  match fetchWithRetry att with
  | (none, n) => (none, n)
  | (some resp, n) =>
    if !resp.ok then (none, n)
    else
      match resp.entries with
      | [] => (none, n)
      | none :: _ => (none, n)
      | some summary :: _ =>
        (some { isbn := isbn
                title := strOr summary.title "タイトル不明"
                authors := if summary.author = "" then ["著者不明"]
                           else summary.author.splitOn " "
                publishedDate := summary.pubdate
                thumbnailUrl := summary.cover
                source := .openBD }, n)

/-- `rawIsbn.replace(/[^0-9X]/g, '')`: keep only decimal digits and the
literal check character `X`. -/
def normalizeIsbn (raw : String) : String :=
  String.mk (raw.toList.filter fun c => c.isDigit || c = 'X')

/-- `fetchFromInventory` (lines 27-65): exact-match scan of the catalog
sheet for the (already normalized) isbn. -/
def fetchFromInventory (isbn : String) (catalog : List CatalogEntry) :
    Option BookData :=
  match catalog.find? (fun row => row.isbn == isbn) with
  | none => none
  | some row =>
    some { isbn := row.isbn
           title := row.title
           authors := if row.authors = "" then [] else row.authors.splitOn ","
           publishedDate := row.publishedDate
           thumbnailUrl := row.image
           source := .inventory }

/-- The books GET handler's possible responses. -/
inductive BooksResponse where
  | badRequest
  | found (b : BookData)
  | notInInventory
  | bookNotFound
deriving Repr, DecidableEq

/-- The discovery fallback chain of the GET handler (lines 182-197):
Google Books first; only if it yielded nothing, OpenBD; 404 when both
yielded nothing.  The two `Nat`s are the fetch attempts made against
Google Books and against OpenBD. -/
def booksDiscovery (isbn : String) (gAtt : Nat → FetchOutcome GoogleResp)
    (oAtt : Nat → FetchOutcome OpenBDResp) : BooksResponse × Nat × Nat :=
  match fetchFromGoogleBooks isbn gAtt with
  | (some b, gn) => (.found b, gn, 0)
  | (none, gn) =>
    match fetchFromOpenBD isbn oAtt with
    | (some b, onCnt) => (.found b, gn, onCnt)
    | (none, onCnt) => (.bookNotFound, gn, onCnt)

/-- The books GET handler (lines 159-198): 400 on a missing isbn, then
normalization, then either the catalog-confirmation branch
(`type === 'inventory'`) or the discovery chain. -/
def booksGET (rawIsbn mode : String) (catalog : List CatalogEntry)
    (gAtt : Nat → FetchOutcome GoogleResp) (oAtt : Nat → FetchOutcome OpenBDResp) :
    BooksResponse × Nat × Nat :=
  if rawIsbn = "" then (.badRequest, 0, 0)
  else
    let isbn := normalizeIsbn rawIsbn
    if mode = "inventory" then
      match fetchFromInventory isbn catalog with
      | some b => (.found b, 0, 0)
      | none => (.notInInventory, 0, 0)
    else booksDiscovery isbn gAtt oAtt

/-- Number of open loan rows for an isbn (derived observation used to
state the single-active-loan invariant). -/
def countOpenLoans (ledger : List LoanRecord) (isbn : String) : Nat :=
  (ledger.filter (isOpenFor isbn)).length

/-- Number of catalog rows carrying an isbn (verbatim comparison, the one
the duplicate check performs). -/
def countIsbn (catalog : List CatalogEntry) (isbn : String) : Nat :=
  (catalog.filter (fun e => e.isbn == isbn)).length

/- ===== Calendar lemmas ===== -/

theorem daysInMonth_ge_28 (y m : Nat) : 28 ≤ daysInMonth y m := by
  unfold daysInMonth
  split_ifs <;> omega

theorem iterate_nextDay_within_month (y m : Nat) :
    ∀ k d : Nat, 1 ≤ d → d + k ≤ daysInMonth y m →
      nextDay^[k] ⟨y, m, d⟩ = ⟨y, m, d + k⟩ := by
  intro k
  induction k with
  | zero => intro d _ _; simp
  | succ k ih =>
    intro d hd hk
    rw [Function.iterate_succ_apply]
    have hlt : d < daysInMonth y m := by omega
    have hstep : nextDay ⟨y, m, d⟩ = ⟨y, m, d + 1⟩ := by
      unfold nextDay
      dsimp only
      rw [if_pos hlt]
    rw [hstep, ih (d + 1) (by omega) (by omega)]
    have harith : d + 1 + k = d + (k + 1) := by omega
    rw [harith]

/-- JS `setDate(getDate() + n)` adds exactly `n` calendar days (as `n`
applications of the calendar successor) for any overflow of at most a full
month, which covers the 14-day loan term and the 2-day reminder horizon. -/
theorem setDatePlus_eq_iterate_nextDay (n : Nat) (d : CDate)
    (hn : n ≤ 28) (hv : ValidDate d) :
    setDatePlus n d = nextDay^[n] d := by
  obtain ⟨y, m, dd⟩ := d
  unfold ValidDate at hv
  dsimp only at hv
  obtain ⟨hm1, hm12, hd1, hdM⟩ := hv
  have hfuel : n + 2 = (n + 1) + 1 := rfl
  by_cases h : dd + n ≤ daysInMonth y m
  · have hL : setDatePlus n ⟨y, m, dd⟩ = ⟨y, m, dd + n⟩ := by
      unfold setDatePlus
      dsimp only
      rw [hfuel]
      unfold normDate
      rw [if_pos h]
    rw [hL, iterate_nextDay_within_month y m n dd hd1 h]
  · have hD28 := daysInMonth_ge_28 y m
    by_cases hm : m < 12
    · have hD28' := daysInMonth_ge_28 y (m + 1)
      have hL : setDatePlus n ⟨y, m, dd⟩ = ⟨y, m + 1, dd + n - daysInMonth y m⟩ := by
        unfold setDatePlus
        dsimp only
        rw [hfuel]
        unfold normDate
        rw [if_neg h, if_pos hm]
        unfold normDate
        rw [if_pos (by omega)]
      rw [hL]
      have hn' : n = (n - (daysInMonth y m - dd) - 1) + ((daysInMonth y m - dd) + 1) := by
        omega
      conv_rhs => rw [hn']
      rw [Function.iterate_add_apply]
      have h1 : nextDay^[(daysInMonth y m - dd) + 1] ⟨y, m, dd⟩ = ⟨y, m + 1, 1⟩ := by
        rw [Function.iterate_succ_apply',
          iterate_nextDay_within_month y m (daysInMonth y m - dd) dd hd1 (by omega)]
        unfold nextDay
        dsimp only
        rw [if_neg (by omega), if_pos hm]
      rw [h1, iterate_nextDay_within_month y (m + 1)
        (n - (daysInMonth y m - dd) - 1) 1 (by omega) (by omega)]
      have harith : 1 + (n - (daysInMonth y m - dd) - 1) = dd + n - daysInMonth y m := by
        omega
      rw [harith]
    · have hD28' := daysInMonth_ge_28 (y + 1) 1
      have hL : setDatePlus n ⟨y, m, dd⟩ = ⟨y + 1, 1, dd + n - daysInMonth y m⟩ := by
        unfold setDatePlus
        dsimp only
        rw [hfuel]
        unfold normDate
        rw [if_neg h, if_neg hm]
        unfold normDate
        rw [if_pos (by omega)]
      rw [hL]
      have hn' : n = (n - (daysInMonth y m - dd) - 1) + ((daysInMonth y m - dd) + 1) := by
        omega
      conv_rhs => rw [hn']
      rw [Function.iterate_add_apply]
      have h1 : nextDay^[(daysInMonth y m - dd) + 1] ⟨y, m, dd⟩ = ⟨y + 1, 1, 1⟩ := by
        rw [Function.iterate_succ_apply',
          iterate_nextDay_within_month y m (daysInMonth y m - dd) dd hd1 (by omega)]
        unfold nextDay
        dsimp only
        rw [if_neg (by omega), if_neg hm]
      rw [h1, iterate_nextDay_within_month (y + 1) 1
        (n - (daysInMonth y m - dd) - 1) 1 (by omega) (by omega)]
      have harith : 1 + (n - (daysInMonth y m - dd) - 1) = dd + n - daysInMonth y m := by
        omega
      rw [harith]

/- ===== Borrow lemmas ===== -/

/-- On a request that passes both guards, `borrow` appends exactly one new
open row and answers 200 with it, whatever the notification channel does. -/
theorem borrow_success (ledger : List LoanRecord)
    (userEmail userName isbn title borrowerGroup newId : String)
    (today : CDate) (wc : Bool) (ch : ChannelOutcome)
    (hU : userEmail ≠ "") (hI : isbn ≠ "") (hG : borrowerGroup ≠ "") :
    borrow ledger userEmail userName isbn title borrowerGroup newId today wc ch =
      ⟨ledger ++ [{ id := newId
                    isbn := isbn
                    title := strOr title "タイトル不明"
                    borrowedAt := getJstDateString today
                    dueAt := getJstDateString (setDatePlus 14 today)
                    borrowerName := strOr userName "氏名不明"
                    borrowerEmail := userEmail
                    borrowerGroup := borrowerGroup
                    returnedAt := "" }],
       .ok { id := newId
             isbn := isbn
             title := strOr title "タイトル不明"
             borrowedAt := getJstDateString today
             dueAt := getJstDateString (setDatePlus 14 today)
             borrowerName := strOr userName "氏名不明"
             borrowerEmail := userEmail
             borrowerGroup := borrowerGroup
             returnedAt := "" },
       sendSlackNotification wc ch⟩ := by
  unfold borrow
  rw [if_neg hU, if_neg (by simp [hI, hG])]

/-- C3: every loan created by `borrow` has `dueAt` equal to `borrowedAt`
plus exactly 14 calendar days (14 applications of the civil-calendar
successor in the fixed Asia/Tokyo calendar), independent of month and year
boundaries. -/
theorem C3_borrow_dueAt_is_14_days_after_borrowedAt
    (ledger : List LoanRecord)
    (userEmail userName isbn title borrowerGroup newId : String)
    (today : CDate) (wc : Bool) (ch : ChannelOutcome)
    (hv : ValidDate today) (hU : userEmail ≠ "") (hI : isbn ≠ "")
    (hG : borrowerGroup ≠ "") :
    ∃ r : LoanRecord,
      (borrow ledger userEmail userName isbn title borrowerGroup newId today wc ch).ledger
          = ledger ++ [r] ∧
      (borrow ledger userEmail userName isbn title borrowerGroup newId today wc ch).response
          = .ok r ∧
      r.borrowedAt = getJstDateString today ∧
      r.dueAt = getJstDateString (nextDay^[14] today) := by
  have h14 : setDatePlus 14 today = nextDay^[14] today :=
    setDatePlus_eq_iterate_nextDay 14 today (by omega) hv
  rw [borrow_success ledger userEmail userName isbn title borrowerGroup newId today wc ch
    hU hI hG]
  exact ⟨_, rfl, rfl, rfl, by dsimp only; rw [h14]⟩

/-- Witness for C3 at the two boundary-crossing dates named by the spec:
2024-02-20 (leap February) and 2024-12-25 (year end). -/
theorem C3_borrow_dueAt_is_14_days_after_borrowedAt_witness :
    (ValidDate ⟨2024, 2, 20⟩ ∧
      ∃ r : LoanRecord,
        (borrow [] "a@example.com" "A" "9784065199810" "T" "Eng" "id-1"
            ⟨2024, 2, 20⟩ true .delivered).ledger = [] ++ [r] ∧
        (borrow [] "a@example.com" "A" "9784065199810" "T" "Eng" "id-1"
            ⟨2024, 2, 20⟩ true .delivered).response = .ok r ∧
        r.borrowedAt = getJstDateString ⟨2024, 2, 20⟩ ∧
        r.dueAt = getJstDateString (nextDay^[14] ⟨2024, 2, 20⟩)) ∧
    getJstDateString (nextDay^[14] ⟨2024, 2, 20⟩) = "2024-03-05" ∧
    (ValidDate ⟨2024, 12, 25⟩ ∧
      ∃ r : LoanRecord,
        (borrow [] "a@example.com" "A" "9784065199810" "T" "Eng" "id-1"
            ⟨2024, 12, 25⟩ true .delivered).ledger = [] ++ [r] ∧
        (borrow [] "a@example.com" "A" "9784065199810" "T" "Eng" "id-1"
            ⟨2024, 12, 25⟩ true .delivered).response = .ok r ∧
        r.borrowedAt = getJstDateString ⟨2024, 12, 25⟩ ∧
        r.dueAt = getJstDateString (nextDay^[14] ⟨2024, 12, 25⟩)) ∧
    getJstDateString (nextDay^[14] ⟨2024, 12, 25⟩) = "2025-01-08" := by
  refine ⟨⟨by decide, ?_⟩, by decide, ⟨by decide, ?_⟩, by decide⟩
  · exact C3_borrow_dueAt_is_14_days_after_borrowedAt [] "a@example.com" "A"
      "9784065199810" "T" "Eng" "id-1" ⟨2024, 2, 20⟩ true .delivered
      (by decide) (by decide) (by decide) (by decide)
  · exact C3_borrow_dueAt_is_14_days_after_borrowedAt [] "a@example.com" "A"
      "9784065199810" "T" "Eng" "id-1" ⟨2024, 12, 25⟩ true .delivered
      (by decide) (by decide) (by decide) (by decide)

/-- C1 (the code's actual behavior at the failing input): borrow performs
no scan for an existing open loan, so with one open loan for the isbn
already on the ledger, a second borrow for the same isbn yields a ledger
with two open loans for it. -/
theorem C1_borrow_creates_second_open_loan :
    countOpenLoans
        [{ id := "id-1", isbn := "9784065199810", title := "T",
           borrowedAt := "2026-01-01", dueAt := "2026-01-15",
           borrowerName := "Alice", borrowerEmail := "alice@example.com",
           borrowerGroup := "Eng", returnedAt := "" }] "9784065199810" = 1 ∧
    countOpenLoans
        (borrow
          [{ id := "id-1", isbn := "9784065199810", title := "T",
             borrowedAt := "2026-01-01", dueAt := "2026-01-15",
             borrowerName := "Alice", borrowerEmail := "alice@example.com",
             borrowerGroup := "Eng", returnedAt := "" }]
          "bob@example.com" "Bob" "9784065199810" "T" "Eng" "id-2"
          ⟨2026, 1, 2⟩ true .delivered).ledger "9784065199810" = 2 := by
  constructor
  · decide
  · decide

/- ===== Register lemmas ===== -/

/-- C4: registering an isbn the catalog already holds answers 409
(ConflictError) before any write, and registering the same isbn twice on a
catalog without it leaves exactly one entry for it, the second call
conflicting. -/
theorem C4_register_duplicate_rejected
    (catalog : List CatalogEntry) (isbn title : String) (authors : JsonStrOrArr)
    (publishedDate thumbnailUrl newId registeredAt : String)
    (hI : isbn ≠ "") (hT : title ≠ "") :
    ((∃ e ∈ catalog, e.isbn = isbn) →
      register catalog isbn title authors publishedDate thumbnailUrl newId registeredAt
        = (catalog, .error .conflict)) ∧
    ((∀ e ∈ catalog, e.isbn ≠ isbn) →
      ∀ title2 : String, ∀ authors2 : JsonStrOrArr,
      ∀ publishedDate2 thumbnailUrl2 newId2 registeredAt2 : String, title2 ≠ "" →
      ∃ e : CatalogEntry,
        (register catalog isbn title authors publishedDate thumbnailUrl newId
            registeredAt).2 = .ok e ∧
        (register catalog isbn title authors publishedDate thumbnailUrl newId
            registeredAt).1 = catalog ++ [e] ∧
        e.isbn = isbn ∧
        register (catalog ++ [e]) isbn title2 authors2 publishedDate2 thumbnailUrl2
            newId2 registeredAt2 = (catalog ++ [e], .error .conflict) ∧
        countIsbn (catalog ++ [e]) isbn = 1) := by
  constructor
  · rintro ⟨e, he, hisbn⟩
    unfold register
    rw [if_neg (by simp [hI, hT]), if_pos]
    exact List.any_eq_true.mpr ⟨e, he, by simp [hisbn]⟩
  · intro hclean title2 authors2 publishedDate2 thumbnailUrl2 newId2 registeredAt2 hT2
    have hnodup : catalog.any (fun row => row.isbn == isbn) = false := by
      rw [List.any_eq_false]
      intro e he
      simp [hclean e he]
    have hfirst : register catalog isbn title authors publishedDate thumbnailUrl newId
        registeredAt =
        (catalog ++ [{ id := newId, isbn := isbn, title := title,
                       authors := joinAuthors authors,
                       publishedDate := publishedDate, image := thumbnailUrl,
                       status := "available", registeredAt := registeredAt }],
         .ok { id := newId, isbn := isbn, title := title,
               authors := joinAuthors authors,
               publishedDate := publishedDate, image := thumbnailUrl,
               status := "available", registeredAt := registeredAt }) := by
      unfold register
      rw [if_neg (by simp [hI, hT]), if_neg (by simp [hnodup])]
    refine ⟨_, by rw [hfirst], by rw [hfirst], rfl, ?_, ?_⟩
    · unfold register
      rw [if_neg (by simp [hI, hT2]), if_pos]
      refine List.any_eq_true.mpr
        ⟨{ id := newId, isbn := isbn, title := title,
           authors := joinAuthors authors, publishedDate := publishedDate,
           image := thumbnailUrl, status := "available",
           registeredAt := registeredAt }, by simp, by simp⟩
    · unfold countIsbn
      rw [List.filter_append]
      have h1 : catalog.filter (fun e => e.isbn == isbn) = [] := by
        rw [List.filter_eq_nil_iff]
        intro e he
        simp [hclean e he]
      rw [h1]
      simp

/-- Witness for C4 on a one-entry catalog and a fresh isbn. -/
theorem C4_register_duplicate_rejected_witness :
    ((∃ e ∈ [({ id := "id-0", isbn := "9780000000001", title := "Old",
                authors := "", publishedDate := "", image := "",
                status := "available", registeredAt := "t0" } : CatalogEntry)],
        e.isbn = "9784065199810") →
      register [{ id := "id-0", isbn := "9780000000001", title := "Old",
                  authors := "", publishedDate := "", image := "",
                  status := "available", registeredAt := "t0" }]
          "9784065199810" "Test Book" (.arr ["A"]) "2024" "u" "id-1" "t1"
        = ([{ id := "id-0", isbn := "9780000000001", title := "Old",
              authors := "", publishedDate := "", image := "",
              status := "available", registeredAt := "t0" }], .error .conflict)) ∧
    ((∀ e ∈ [({ id := "id-0", isbn := "9780000000001", title := "Old",
                authors := "", publishedDate := "", image := "",
                status := "available", registeredAt := "t0" } : CatalogEntry)],
        e.isbn ≠ "9784065199810") →
      ∀ title2 : String, ∀ authors2 : JsonStrOrArr,
      ∀ publishedDate2 thumbnailUrl2 newId2 registeredAt2 : String, title2 ≠ "" →
      ∃ e : CatalogEntry,
        (register [{ id := "id-0", isbn := "9780000000001", title := "Old",
                     authors := "", publishedDate := "", image := "",
                     status := "available", registeredAt := "t0" }]
            "9784065199810" "Test Book" (.arr ["A"]) "2024" "u" "id-1" "t1").2
          = .ok e ∧
        (register [{ id := "id-0", isbn := "9780000000001", title := "Old",
                     authors := "", publishedDate := "", image := "",
                     status := "available", registeredAt := "t0" }]
            "9784065199810" "Test Book" (.arr ["A"]) "2024" "u" "id-1" "t1").1
          = [{ id := "id-0", isbn := "9780000000001", title := "Old",
               authors := "", publishedDate := "", image := "",
               status := "available", registeredAt := "t0" }] ++ [e] ∧
        e.isbn = "9784065199810" ∧
        register ([{ id := "id-0", isbn := "9780000000001", title := "Old",
                     authors := "", publishedDate := "", image := "",
                     status := "available", registeredAt := "t0" }] ++ [e])
            "9784065199810" title2 authors2 publishedDate2 thumbnailUrl2
            newId2 registeredAt2
          = ([{ id := "id-0", isbn := "9780000000001", title := "Old",
                authors := "", publishedDate := "", image := "",
                status := "available", registeredAt := "t0" }] ++ [e],
             .error .conflict) ∧
        countIsbn ([{ id := "id-0", isbn := "9780000000001", title := "Old",
                      authors := "", publishedDate := "", image := "",
                      status := "available", registeredAt := "t0" }] ++ [e])
            "9784065199810" = 1) :=
  C4_register_duplicate_rejected
    [{ id := "id-0", isbn := "9780000000001", title := "Old",
       authors := "", publishedDate := "", image := "",
       status := "available", registeredAt := "t0" }]
    "9784065199810" "Test Book" (.arr ["A"]) "2024" "u" "id-1" "t1"
    (by decide) (by decide)

/- ===== findLastOpen characterization ===== -/

theorem findLastOpen_eq_none (l : List LoanRecord) (isbn : String) :
    findLastOpen l isbn = none ↔ ∀ r ∈ l, isOpenFor isbn r = false := by
  induction l with
  | nil => simp [findLastOpen]
  | cons r rest ih =>
    constructor
    · intro hnone
      unfold findLastOpen at hnone
      cases h : findLastOpen rest isbn with
      | some p =>
        obtain ⟨k, z⟩ := p
        rw [h] at hnone
        simp at hnone
      | none =>
        rw [h] at hnone
        by_cases ho : isOpenFor isbn r
        · simp [ho] at hnone
        · intro x hx
          rcases List.mem_cons.mp hx with hx | hx
          · subst hx
            simpa using ho
          · exact ih.mp h x hx
    · intro hall
      have hrest : findLastOpen rest isbn = none :=
        ih.mpr fun x hx => hall x (List.mem_cons_of_mem _ hx)
      have hr : isOpenFor isbn r = false := hall r (List.mem_cons_self r rest)
      unfold findLastOpen
      rw [hrest, hr]
      simp

theorem findLastOpen_spec (l : List LoanRecord) (isbn : String) :
    ∀ (i : Nat) (x : LoanRecord), findLastOpen l isbn = some (i, x) →
      i < l.length ∧ l.get? i = some x ∧ isOpenFor isbn x = true ∧
      ∀ j, i < j → ∀ y, l.get? j = some y → isOpenFor isbn y = false := by
  induction l with
  | nil => intro i x h; simp [findLastOpen] at h
  | cons r rest ih =>
    intro i x h
    unfold findLastOpen at h
    cases hr : findLastOpen rest isbn with
    | some p =>
      obtain ⟨k, z⟩ := p
      rw [hr] at h
      simp only [Option.some.injEq, Prod.mk.injEq] at h
      obtain ⟨hi, hx⟩ := h
      subst hi
      subst hx
      obtain ⟨hk, hgz, hoz, hafter⟩ := ih k z hr
      refine ⟨by simpa using hk, by simpa using hgz, hoz, ?_⟩
      intro j hj y hy
      cases j with
      | zero => omega
      | succ j' =>
        simp only [List.get?_cons_succ] at hy
        exact hafter j' (by omega) y hy
    | none =>
      rw [hr] at h
      by_cases ho : isOpenFor isbn r
      · rw [if_pos ho] at h
        simp only [Option.some.injEq, Prod.mk.injEq] at h
        obtain ⟨hi, hx⟩ := h
        subst hi
        subst hx
        refine ⟨by simp, by simp, ho, ?_⟩
        intro j hj y hy
        cases j with
        | zero => omega
        | succ j' =>
          simp only [List.get?_cons_succ] at hy
          exact (findLastOpen_eq_none rest isbn).mp hr y (List.get?_mem hy)
      · rw [if_neg ho] at h
        cases h

theorem findLastOpen_eq_some_of_last {l : List LoanRecord} {isbn : String}
    {i : Nat} {x : LoanRecord}
    (hget : l.get? i = some x) (hopen : isOpenFor isbn x = true)
    (hafter : ∀ j, i < j → ∀ y, l.get? j = some y → isOpenFor isbn y = false) :
    findLastOpen l isbn = some (i, x) := by
  cases hfind : findLastOpen l isbn with
  | none =>
    have hfalse := (findLastOpen_eq_none l isbn).mp hfind x (List.get?_mem hget)
    rw [hopen] at hfalse
    cases hfalse
  | some p =>
    obtain ⟨k, z⟩ := p
    obtain ⟨hk, hgz, hoz, hafterk⟩ := findLastOpen_spec l isbn k z hfind
    rcases Nat.lt_trichotomy i k with hik | hik | hik
    · have hfalse := hafter k hik z hgz
      rw [hoz] at hfalse
      cases hfalse
    · subst hik
      rw [hget] at hgz
      injection hgz with hz
      rw [hz]
    · have hfalse := hafterk i hik x hget
      rw [hopen] at hfalse
      cases hfalse

/- ===== Return lemmas ===== -/

/-- C2: `returnItem` selects the most recently created open record for the
isbn (last in append order), writes today's date into exactly that record
leaving every other record unchanged, and answers a not-currently-lent 404
with no mutation when no open record exists. -/
theorem C2_returnItem_closes_newest_open_loan
    (ledger : List LoanRecord) (isbn : String) (today : CDate)
    (wc : Bool) (ch : ChannelOutcome) (hI : isbn ≠ "") :
    ((∀ r ∈ ledger, isOpenFor isbn r = false) →
      returnItem ledger isbn today wc ch = ⟨ledger, .error .notLent, .notAttempted⟩) ∧
    (∀ (i : Nat) (x : LoanRecord), ledger.get? i = some x →
      isOpenFor isbn x = true →
      (∀ j, i < j → ∀ y, ledger.get? j = some y → isOpenFor isbn y = false) →
      returnItem ledger isbn today wc ch =
        ⟨ledger.set i { x with returnedAt := getJstDateString today },
         .ok (strOr x.title "タイトル不明", strOr x.borrowerName "氏名不明"),
         sendSlackNotification wc ch⟩ ∧
      ∀ j, j ≠ i →
        (returnItem ledger isbn today wc ch).ledger.get? j = ledger.get? j) := by
  constructor
  · intro hall
    have hnone : findLastOpen ledger isbn = none :=
      (findLastOpen_eq_none ledger isbn).mpr hall
    unfold returnItem
    rw [if_neg hI, hnone]
  · intro i x hget hopen hafter
    have hsome : findLastOpen ledger isbn = some (i, x) :=
      findLastOpen_eq_some_of_last hget hopen hafter
    have heq : returnItem ledger isbn today wc ch =
        ⟨ledger.set i { x with returnedAt := getJstDateString today },
         .ok (strOr x.title "タイトル不明", strOr x.borrowerName "氏名不明"),
         sendSlackNotification wc ch⟩ := by
      unfold returnItem
      rw [if_neg hI, hsome]
    refine ⟨heq, ?_⟩
    intro j hj
    rw [heq]
    dsimp only
    simp [List.get?_eq_getElem?, List.getElem?_set_ne (by omega : i ≠ j)]

/-- Witness for C2: a two-open-loan ledger, where the later record is the
one closed, and the not-lent branch on an isbn with no open record. -/
theorem C2_returnItem_closes_newest_open_loan_witness :
    (returnItem
        [{ id := "id-1", isbn := "9784065199810", title := "T1",
           borrowedAt := "2026-01-01", dueAt := "2026-01-15",
           borrowerName := "Alice", borrowerEmail := "a@example.com",
           borrowerGroup := "Eng", returnedAt := "" },
         { id := "id-2", isbn := "9784065199810", title := "T2",
           borrowedAt := "2026-01-02", dueAt := "2026-01-16",
           borrowerName := "Bob", borrowerEmail := "b@example.com",
           borrowerGroup := "Eng", returnedAt := "" }]
        "9784065199810" ⟨2026, 1, 5⟩ true .delivered =
      ⟨List.set
        [{ id := "id-1", isbn := "9784065199810", title := "T1",
           borrowedAt := "2026-01-01", dueAt := "2026-01-15",
           borrowerName := "Alice", borrowerEmail := "a@example.com",
           borrowerGroup := "Eng", returnedAt := "" },
         { id := "id-2", isbn := "9784065199810", title := "T2",
           borrowedAt := "2026-01-02", dueAt := "2026-01-16",
           borrowerName := "Bob", borrowerEmail := "b@example.com",
           borrowerGroup := "Eng", returnedAt := "" }] 1
        { id := "id-2", isbn := "9784065199810", title := "T2",
          borrowedAt := "2026-01-02", dueAt := "2026-01-16",
          borrowerName := "Bob", borrowerEmail := "b@example.com",
          borrowerGroup := "Eng", returnedAt := getJstDateString ⟨2026, 1, 5⟩ },
       .ok (strOr "T2" "タイトル不明", strOr "Bob" "氏名不明"),
       sendSlackNotification true .delivered⟩) ∧
    returnItem
        [{ id := "id-1", isbn := "9784065199810", title := "T1",
           borrowedAt := "2026-01-01", dueAt := "2026-01-15",
           borrowerName := "Alice", borrowerEmail := "a@example.com",
           borrowerGroup := "Eng", returnedAt := "2026-01-03" }]
        "9784065199810" ⟨2026, 1, 5⟩ true .delivered =
      ⟨[{ id := "id-1", isbn := "9784065199810", title := "T1",
          borrowedAt := "2026-01-01", dueAt := "2026-01-15",
          borrowerName := "Alice", borrowerEmail := "a@example.com",
          borrowerGroup := "Eng", returnedAt := "2026-01-03" }],
       .error .notLent, .notAttempted⟩ := by
  constructor
  · exact ((C2_returnItem_closes_newest_open_loan
      [{ id := "id-1", isbn := "9784065199810", title := "T1",
         borrowedAt := "2026-01-01", dueAt := "2026-01-15",
         borrowerName := "Alice", borrowerEmail := "a@example.com",
         borrowerGroup := "Eng", returnedAt := "" },
       { id := "id-2", isbn := "9784065199810", title := "T2",
         borrowedAt := "2026-01-02", dueAt := "2026-01-16",
         borrowerName := "Bob", borrowerEmail := "b@example.com",
         borrowerGroup := "Eng", returnedAt := "" }]
      "9784065199810" ⟨2026, 1, 5⟩
      true .delivered (by decide)).2 1
      { id := "id-2", isbn := "9784065199810", title := "T2",
        borrowedAt := "2026-01-02", dueAt := "2026-01-16",
        borrowerName := "Bob", borrowerEmail := "b@example.com",
        borrowerGroup := "Eng", returnedAt := "" }
      (by decide) (by decide)
      (by
        intro j hj y hy
        cases j with
        | zero => omega
        | succ ja =>
          cases ja with
          | zero => omega
          | succ jb => simp [List.get?] at hy)).1
  · exact (C2_returnItem_closes_newest_open_loan
      [{ id := "id-1", isbn := "9784065199810", title := "T1",
         borrowedAt := "2026-01-01", dueAt := "2026-01-15",
         borrowerName := "Alice", borrowerEmail := "a@example.com",
         borrowerGroup := "Eng", returnedAt := "2026-01-03" }]
      "9784065199810" ⟨2026, 1, 5⟩
      true .delivered (by decide)).1 (by decide)

/- ===== Notification lemmas ===== -/

/-- C8: a chat-webhook delivery failure after the borrow or return write is
caught inside `sendSlackNotification` (logged only, never re-thrown): the
handler's response and the committed ledger are exactly those of the
delivered case, and on a valid borrow the appended row is still committed
and answered with 200 when the channel fails. -/
theorem C8_notification_failure_never_propagates
    (ledger : List LoanRecord)
    (userEmail userName isbn title borrowerGroup newId : String)
    (today : CDate) (wc : Bool) :
    sendSlackNotification true .networkError = .loggedError ∧
    (borrow ledger userEmail userName isbn title borrowerGroup newId today wc
        .networkError).ledger =
      (borrow ledger userEmail userName isbn title borrowerGroup newId today wc
        .delivered).ledger ∧
    (borrow ledger userEmail userName isbn title borrowerGroup newId today wc
        .networkError).response =
      (borrow ledger userEmail userName isbn title borrowerGroup newId today wc
        .delivered).response ∧
    (returnItem ledger isbn today wc .networkError).ledger =
      (returnItem ledger isbn today wc .delivered).ledger ∧
    (returnItem ledger isbn today wc .networkError).response =
      (returnItem ledger isbn today wc .delivered).response ∧
    (userEmail ≠ "" → isbn ≠ "" → borrowerGroup ≠ "" →
      ∃ r : LoanRecord,
        (borrow ledger userEmail userName isbn title borrowerGroup newId today wc
            .networkError).ledger = ledger ++ [r] ∧
        (borrow ledger userEmail userName isbn title borrowerGroup newId today wc
            .networkError).response = .ok r) := by
  refine ⟨rfl, ?_, ?_, ?_, ?_, ?_⟩
  · unfold borrow
    split_ifs <;> rfl
  · unfold borrow
    split_ifs <;> rfl
  · unfold returnItem
    by_cases hI : isbn = ""
    · rw [if_pos hI, if_pos hI]
    · rw [if_neg hI, if_neg hI]
      rcases hf : findLastOpen ledger isbn with _ | ⟨i, x⟩ <;> rfl
  · unfold returnItem
    by_cases hI : isbn = ""
    · rw [if_pos hI, if_pos hI]
    · rw [if_neg hI, if_neg hI]
      rcases hf : findLastOpen ledger isbn with _ | ⟨i, x⟩ <;> rfl
  · intro hU hI hG
    rw [borrow_success ledger userEmail userName isbn title borrowerGroup newId today wc
      .networkError hU hI hG]
    exact ⟨_, rfl, rfl⟩

/-- Witness for C8 at a concrete failing channel. -/
theorem C8_notification_failure_never_propagates_witness :
    sendSlackNotification true .networkError = .loggedError ∧
    (∃ r : LoanRecord,
      (borrow [] "a@example.com" "A" "9784065199810" "T" "Eng" "id-1"
          ⟨2026, 1, 2⟩ true .networkError).ledger = [] ++ [r] ∧
      (borrow [] "a@example.com" "A" "9784065199810" "T" "Eng" "id-1"
          ⟨2026, 1, 2⟩ true .networkError).response = .ok r) :=
  ⟨(C8_notification_failure_never_propagates [] "a@example.com" "A" "9784065199810"
      "T" "Eng" "id-1" ⟨2026, 1, 2⟩ true).1,
   (C8_notification_failure_never_propagates [] "a@example.com" "A" "9784065199810"
      "T" "Eng" "id-1" ⟨2026, 1, 2⟩ true).2.2.2.2.2
      (by decide) (by decide) (by decide)⟩

/- ===== Reminder sweep lemmas ===== -/

/-- C9: the sweep on date `D` selects exactly the open rows with
`dueAt = D + 2` (two calendar-successor steps), and queues one reminder
mail per selected row with a nonempty borrower email, skipping the rest. -/
theorem C9_reminder_sweep_selection
    (ledger : List LoanRecord) (today : CDate) (hv : ValidDate today) :
    (∀ r : LoanRecord, r ∈ sweepTargets ledger today ↔
      r ∈ ledger ∧ r.returnedAt = "" ∧
      r.dueAt = getJstDateString (nextDay^[2] today)) ∧
    (∀ m : ReminderMail, m ∈ runReminderSweep ledger today ↔
      ∃ r ∈ sweepTargets ledger today, r.borrowerEmail ≠ "" ∧
        m = { email := r.borrowerEmail, name := r.borrowerName,
              title := r.title, dueAt := r.dueAt }) := by
  have h2 : setDatePlus 2 today = nextDay^[2] today :=
    setDatePlus_eq_iterate_nextDay 2 today (by omega) hv
  constructor
  · intro r
    unfold sweepTargets
    rw [List.mem_filter]
    simp [h2]
  · intro m
    unfold runReminderSweep
    rw [List.mem_filterMap]
    constructor
    · rintro ⟨r, hr, hf⟩
      by_cases he : r.borrowerEmail = ""
      · rw [if_pos (by simp [he])] at hf
        cases hf
      · rw [if_neg (by simp [he])] at hf
        injection hf with h
        exact ⟨r, hr, he, h.symm⟩
    · rintro ⟨r, hr, he, hm⟩
      refine ⟨r, hr, ?_⟩
      rw [if_neg (by simp [he]), hm]

/-- Witness for C9: on 2026-01-01 a ledger with one open row due
2026-01-03 (with an email), one open row due later, and one returned row
due 2026-01-03 without an email queues exactly the reminder for the first
row. -/
theorem C9_reminder_sweep_selection_witness :
    ({ email := "a@example.com", name := "Alice", title := "T1",
       dueAt := "2026-01-03" } : ReminderMail) ∈
      runReminderSweep
        [{ id := "id-1", isbn := "9784065199810", title := "T1",
           borrowedAt := "2025-12-20", dueAt := "2026-01-03",
           borrowerName := "Alice", borrowerEmail := "a@example.com",
           borrowerGroup := "Eng", returnedAt := "" },
         { id := "id-2", isbn := "9784065199811", title := "T2",
           borrowedAt := "2025-12-25", dueAt := "2026-01-08",
           borrowerName := "Bob", borrowerEmail := "b@example.com",
           borrowerGroup := "Eng", returnedAt := "" }]
        ⟨2026, 1, 1⟩ := by
  have h := C9_reminder_sweep_selection
    [{ id := "id-1", isbn := "9784065199810", title := "T1",
       borrowedAt := "2025-12-20", dueAt := "2026-01-03",
       borrowerName := "Alice", borrowerEmail := "a@example.com",
       borrowerGroup := "Eng", returnedAt := "" },
     { id := "id-2", isbn := "9784065199811", title := "T2",
       borrowedAt := "2025-12-25", dueAt := "2026-01-08",
       borrowerName := "Bob", borrowerEmail := "b@example.com",
       borrowerGroup := "Eng", returnedAt := "" }]
    ⟨2026, 1, 1⟩ (by decide)
  refine (h.2 { email := "a@example.com", name := "Alice", title := "T1",
                dueAt := "2026-01-03" }).mpr
    ⟨{ id := "id-1", isbn := "9784065199810", title := "T1",
       borrowedAt := "2025-12-20", dueAt := "2026-01-03",
       borrowerName := "Alice", borrowerEmail := "a@example.com",
       borrowerGroup := "Eng", returnedAt := "" },
     (h.1 _).mpr ⟨by simp, rfl, by decide⟩, by decide, rfl⟩

/- ===== Lending-map lemmas ===== -/

theorem mapGet_mapSet_same (m : List (String × LendingInfo)) (k : String)
    (v : LendingInfo) : mapGet (mapSet m k v) k = some v := by
  induction m with
  | nil =>
    unfold mapSet mapGet
    rw [List.find?_cons_of_pos _ (by simp)]
    rfl
  | cons p rest ih =>
    obtain ⟨k', v'⟩ := p
    by_cases h : k' = k
    · have hms : mapSet ((k', v') :: rest) k v = (k, v) :: rest := by
        unfold mapSet
        rw [if_pos h]
      rw [hms]
      unfold mapGet
      rw [List.find?_cons_of_pos _ (by simp)]
      rfl
    · have hms : mapSet ((k', v') :: rest) k v = (k', v') :: mapSet rest k v := by
        simp only [mapSet]
        rw [if_neg h]
      rw [hms]
      unfold mapGet
      rw [List.find?_cons_of_neg _ (by simp [h])]
      exact ih

theorem mapGet_mapSet_ne (m : List (String × LendingInfo)) (k q : String)
    (v : LendingInfo) (hne : k ≠ q) : mapGet (mapSet m k v) q = mapGet m q := by
  induction m with
  | nil =>
    unfold mapSet mapGet
    rw [List.find?_cons_of_neg _ (by simp [hne])]
  | cons p rest ih =>
    obtain ⟨k', v'⟩ := p
    by_cases h : k' = k
    · subst h
      have hms : mapSet ((k', v') :: rest) k' v = (k', v) :: rest := by
        unfold mapSet
        rw [if_pos rfl]
      rw [hms]
      unfold mapGet
      rw [List.find?_cons_of_neg _ (by simp [hne]),
        List.find?_cons_of_neg _ (by simp [hne])]
    · have hms : mapSet ((k', v') :: rest) k v = (k', v') :: mapSet rest k v := by
        simp only [mapSet]
        rw [if_neg h]
      rw [hms]
      by_cases hq : k' = q
      · unfold mapGet
        rw [List.find?_cons_of_pos _ (by simp [hq]),
          List.find?_cons_of_pos _ (by simp [hq])]
      · unfold mapGet
        rw [List.find?_cons_of_neg _ (by simp [hq]),
          List.find?_cons_of_neg _ (by simp [hq])]
        exact ih

theorem mapGet_lendingStep (m : List (String × LendingInfo)) (row : LoanRecord)
    (q : String) (hq : q ≠ "") :
    mapGet (lendingStep m row) q =
      if isOpenFor q row then some ⟨row.dueAt, row.borrowerName⟩ else mapGet m q := by
  unfold lendingStep isOpenFor
  by_cases h1 : row.isbn = ""
  · have hguard : (row.isbn != "" && row.returnedAt == "") = false := by
      simp [h1]
    rw [hguard]
    have hop : (row.isbn == q && row.returnedAt == "") = false := by
      simp only [Bool.and_eq_false_iff]
      left
      simp [h1]
      exact fun hcontra => hq hcontra.symm
    rw [hop]
    simp
  · by_cases h2 : row.returnedAt = ""
    · have hguard : (row.isbn != "" && row.returnedAt == "") = true := by
        simp [h1, h2]
      rw [hguard]
      simp only [if_true]
      by_cases h3 : row.isbn = q
      · have hop : (row.isbn == q && row.returnedAt == "") = true := by
          simp [h3, h2]
        rw [hop, if_pos rfl, h3]
        exact mapGet_mapSet_same m q ⟨row.dueAt, row.borrowerName⟩
      · have hop : (row.isbn == q && row.returnedAt == "") = false := by
          simp [h3]
        rw [hop]
        simp only [Bool.false_eq_true, if_false]
        exact mapGet_mapSet_ne m row.isbn q ⟨row.dueAt, row.borrowerName⟩ h3
    · have hguard : (row.isbn != "" && row.returnedAt == "") = false := by
        simp [h2]
      rw [hguard]
      have hop : (row.isbn == q && row.returnedAt == "") = false := by
        simp [h2]
      rw [hop]
      simp

theorem mapGet_foldl_lendingStep (rows : List LoanRecord) :
    ∀ (acc : List (String × LendingInfo)) (q : String), q ≠ "" →
      mapGet (rows.foldl lendingStep acc) q =
        (match findLastOpen rows q with
         | some (_, x) => some ⟨x.dueAt, x.borrowerName⟩
         | none => mapGet acc q) := by
  induction rows with
  | nil => intro acc q _; simp [findLastOpen]
  | cons row rest ih =>
    intro acc q hq
    rw [List.foldl_cons, ih (lendingStep acc row) q hq]
    cases hr : findLastOpen rest q with
    | some p =>
      obtain ⟨i, x⟩ := p
      have hcons : findLastOpen (row :: rest) q = some (i + 1, x) := by
        unfold findLastOpen
        rw [hr]
      rw [hcons]
    | none =>
      have hcons : findLastOpen (row :: rest) q =
          if isOpenFor q row then some (0, row) else none := by
        unfold findLastOpen
        rw [hr]
      rw [hcons, mapGet_lendingStep acc row q hq]
      by_cases ho : isOpenFor q row
      · rw [if_pos ho, if_pos ho]
      · rw [if_neg ho, if_neg ho]

/-- C10: when more than one record for an isbn is open, the status list
reports the item as lent with the `dueAt` and borrower name of the open
record that is last in ledger append order, because the single-pass
`lendingMap` build lets later open rows overwrite earlier ones. -/
theorem C10_listStatus_last_open_record_wins
    (catalog : List CatalogEntry) (rows : List LoanRecord) (k : Nat)
    (e : CatalogEntry) (hk : catalog.get? k = some e) (hne : e.isbn ≠ "")
    (i l : Nat) (ri rl : LoanRecord)
    (hi : rows.get? i = some ri) (hl : rows.get? l = some rl) (hil : i < l)
    (hoi : isOpenFor e.isbn ri = true) (hol : isOpenFor e.isbn rl = true)
    (hafter : ∀ j, l < j → ∀ y, rows.get? j = some y →
      isOpenFor e.isbn y = false) :
    (listBooks catalog rows).reverse.get? k = some
      { isbn := e.isbn, title := e.title, authors := e.authors,
        thumbnailUrl := e.image, status := "lent",
        lendingDetail := some ⟨rl.dueAt, rl.borrowerName⟩ } := by
  have hfind : findLastOpen rows e.isbn = some (l, rl) :=
    findLastOpen_eq_some_of_last hl hol hafter
  have hmap : mapGet (buildLendingMap rows) e.isbn =
      some ⟨rl.dueAt, rl.borrowerName⟩ := by
    unfold buildLendingMap
    rw [mapGet_foldl_lendingStep rows [] e.isbn hne, hfind]
  unfold listBooks
  rw [List.reverse_reverse, List.get?_eq_getElem?, List.getElem?_map]
  rw [List.get?_eq_getElem?] at hk
  rw [hk, Option.map_some']
  unfold bookEntry
  rw [hmap]

/-- Witness for C10: two open loans for one isbn; the status list shows
the later record's due date and borrower. -/
theorem C10_listStatus_last_open_record_wins_witness :
    (listBooks
        [{ id := "c-1", isbn := "9784065199810", title := "T",
           authors := "A", publishedDate := "2020", image := "u",
           status := "available", registeredAt := "t0" }]
        [{ id := "id-1", isbn := "9784065199810", title := "T",
           borrowedAt := "2026-01-01", dueAt := "2026-01-15",
           borrowerName := "Alice", borrowerEmail := "a@example.com",
           borrowerGroup := "Eng", returnedAt := "" },
         { id := "id-2", isbn := "9784065199810", title := "T",
           borrowedAt := "2026-01-02", dueAt := "2026-01-16",
           borrowerName := "Bob", borrowerEmail := "b@example.com",
           borrowerGroup := "Eng", returnedAt := "" }]).reverse.get? 0 = some
      { isbn := "9784065199810", title := "T", authors := "A",
        thumbnailUrl := "u", status := "lent",
        lendingDetail := some ⟨"2026-01-16", "Bob"⟩ } :=
  C10_listStatus_last_open_record_wins
    [{ id := "c-1", isbn := "9784065199810", title := "T",
       authors := "A", publishedDate := "2020", image := "u",
       status := "available", registeredAt := "t0" }]
    [{ id := "id-1", isbn := "9784065199810", title := "T",
       borrowedAt := "2026-01-01", dueAt := "2026-01-15",
       borrowerName := "Alice", borrowerEmail := "a@example.com",
       borrowerGroup := "Eng", returnedAt := "" },
     { id := "id-2", isbn := "9784065199810", title := "T",
       borrowedAt := "2026-01-02", dueAt := "2026-01-16",
       borrowerName := "Bob", borrowerEmail := "b@example.com",
       borrowerGroup := "Eng", returnedAt := "" }]
    0
    { id := "c-1", isbn := "9784065199810", title := "T",
      authors := "A", publishedDate := "2020", image := "u",
      status := "available", registeredAt := "t0" }
    (by decide) (by decide) 0 1
    { id := "id-1", isbn := "9784065199810", title := "T",
      borrowedAt := "2026-01-01", dueAt := "2026-01-15",
      borrowerName := "Alice", borrowerEmail := "a@example.com",
      borrowerGroup := "Eng", returnedAt := "" }
    { id := "id-2", isbn := "9784065199810", title := "T",
      borrowedAt := "2026-01-02", dueAt := "2026-01-16",
      borrowerName := "Bob", borrowerEmail := "b@example.com",
      borrowerGroup := "Eng", returnedAt := "" }
    (by decide) (by decide) (by decide) (by decide) (by decide)
    (by
      intro j hj y hy
      cases j with
      | zero => omega
      | succ ja =>
        cases ja with
        | zero => omega
        | succ jb => simp [List.get?] at hy)

/- ===== Resolver lemmas ===== -/

theorem fetchWithRetry_two_fails {α : Type} (att : Nat → FetchOutcome α)
    (h0 : att 0 = .fail) (h1 : att 1 = .fail) :
    fetchWithRetry att = (none, 2) := by
  unfold fetchWithRetry MAX_RETRIES
  unfold fetchRetryLoop
  rw [h0]
  unfold fetchRetryLoop
  rw [h1]
  rfl

theorem fetchWithRetry_first_ok {α : Type} (att : Nat → FetchOutcome α)
    (resp : α) (h0 : att 0 = .ok resp) :
    fetchWithRetry att = (some resp, 1) := by
  unfold fetchWithRetry MAX_RETRIES
  unfold fetchRetryLoop
  rw [h0]

theorem fetchFromGoogleBooks_snd (isbn : String)
    (att : Nat → FetchOutcome GoogleResp) :
    (fetchFromGoogleBooks isbn att).2 = (fetchWithRetry att).2 := by
  unfold fetchFromGoogleBooks
  rcases hw : fetchWithRetry att with ⟨r, n⟩
  rcases r with _ | resp
  · rfl
  · by_cases hok : resp.ok
    · rcases hitems : resp.items with _ | ⟨v, rest⟩
      · simp [hok, hitems]
      · simp [hok, hitems]
    · simp [hok]

theorem fetchFromGoogleBooks_exhausted (isbn : String)
    (att : Nat → FetchOutcome GoogleResp)
    (h0 : att 0 = .fail) (h1 : att 1 = .fail) :
    fetchFromGoogleBooks isbn att = (none, 2) := by
  unfold fetchFromGoogleBooks
  rw [fetchWithRetry_two_fails att h0 h1]

theorem booksGET_discovery (rawIsbn mode : String) (catalog : List CatalogEntry)
    (gAtt : Nat → FetchOutcome GoogleResp) (oAtt : Nat → FetchOutcome OpenBDResp)
    (hI : rawIsbn ≠ "") (hm : mode ≠ "inventory") :
    booksGET rawIsbn mode catalog gAtt oAtt =
      booksDiscovery (normalizeIsbn rawIsbn) gAtt oAtt := by
  unfold booksGET
  rw [if_neg hI, if_neg hm]

/-- C5: in discovery mode Google Books is queried first; the first
provider yielding usable data wins (OpenBD then makes zero fetch
attempts); OpenBD is queried only after Google Books yielded nothing; and
when both yield nothing the handler answers 404. -/
theorem C5_discovery_first_usable_provider_wins
    (rawIsbn mode : String) (catalog : List CatalogEntry)
    (gAtt : Nat → FetchOutcome GoogleResp) (oAtt : Nat → FetchOutcome OpenBDResp)
    (hI : rawIsbn ≠ "") (hm : mode ≠ "inventory") :
    (∀ b : BookData,
      (fetchFromGoogleBooks (normalizeIsbn rawIsbn) gAtt).1 = some b →
      booksGET rawIsbn mode catalog gAtt oAtt =
        (.found b, (fetchFromGoogleBooks (normalizeIsbn rawIsbn) gAtt).2, 0)) ∧
    ((fetchFromGoogleBooks (normalizeIsbn rawIsbn) gAtt).1 = none →
      ∀ b : BookData,
      (fetchFromOpenBD (normalizeIsbn rawIsbn) oAtt).1 = some b →
      booksGET rawIsbn mode catalog gAtt oAtt =
        (.found b, (fetchFromGoogleBooks (normalizeIsbn rawIsbn) gAtt).2,
         (fetchFromOpenBD (normalizeIsbn rawIsbn) oAtt).2)) ∧
    ((fetchFromGoogleBooks (normalizeIsbn rawIsbn) gAtt).1 = none →
      (fetchFromOpenBD (normalizeIsbn rawIsbn) oAtt).1 = none →
      booksGET rawIsbn mode catalog gAtt oAtt =
        (.bookNotFound, (fetchFromGoogleBooks (normalizeIsbn rawIsbn) gAtt).2,
         (fetchFromOpenBD (normalizeIsbn rawIsbn) oAtt).2)) := by
  refine ⟨?_, ?_, ?_⟩
  · intro b hb
    have hg : fetchFromGoogleBooks (normalizeIsbn rawIsbn) gAtt =
        (some b, (fetchFromGoogleBooks (normalizeIsbn rawIsbn) gAtt).2) := by
      rw [← hb]
    rw [booksGET_discovery rawIsbn mode catalog gAtt oAtt hI hm]
    unfold booksDiscovery
    rw [hg]
  · intro hgn b hb
    have hg : fetchFromGoogleBooks (normalizeIsbn rawIsbn) gAtt =
        (none, (fetchFromGoogleBooks (normalizeIsbn rawIsbn) gAtt).2) := by
      rw [← hgn]
    have ho : fetchFromOpenBD (normalizeIsbn rawIsbn) oAtt =
        (some b, (fetchFromOpenBD (normalizeIsbn rawIsbn) oAtt).2) := by
      rw [← hb]
    rw [booksGET_discovery rawIsbn mode catalog gAtt oAtt hI hm]
    unfold booksDiscovery
    rw [hg, ho]
  · intro hgn hon
    have hg : fetchFromGoogleBooks (normalizeIsbn rawIsbn) gAtt =
        (none, (fetchFromGoogleBooks (normalizeIsbn rawIsbn) gAtt).2) := by
      rw [← hgn]
    have ho : fetchFromOpenBD (normalizeIsbn rawIsbn) oAtt =
        (none, (fetchFromOpenBD (normalizeIsbn rawIsbn) oAtt).2) := by
      rw [← hon]
    rw [booksGET_discovery rawIsbn mode catalog gAtt oAtt hI hm]
    unfold booksDiscovery
    rw [hg, ho]

/-- Witness for C5: Google Books answers usable data on the first attempt,
so the handler returns it and OpenBD is never queried. -/
theorem C5_discovery_first_usable_provider_wins_witness :
    booksGET "9784065199810" "" []
        (fun _ =>
          .ok { ok := true
                items := [{ title := "T", authors := some ["A"],
                            publishedDate := "2020", thumbnail := "u" }] })
        (fun _ => .ok { ok := true, entries := [] }) =
      (.found { isbn := "9784065199810", title := "T", authors := ["A"],
                publishedDate := "2020", thumbnailUrl := "u",
                source := .googleBooks },
       1, 0) := by
  have h := (C5_discovery_first_usable_provider_wins "9784065199810" "" []
    (fun _ =>
      .ok { ok := true
            items := [{ title := "T", authors := some ["A"],
                        publishedDate := "2020", thumbnail := "u" }] })
    (fun _ => .ok { ok := true, entries := [] })
    (by decide) (by decide)).1
    { isbn := "9784065199810", title := "T", authors := ["A"],
      publishedDate := "2020", thumbnailUrl := "u", source := .googleBooks }
    (by decide)
  rw [h]
  decide

/-- C6: each provider call carries the 3000 ms timeout constant and the
retry constant 1 (one retry after the first attempt); a provider whose two
attempts both throw is exhausted after exactly 2 attempts; a well-formed
response on the first attempt ends the provider's fetching after exactly 1
attempt (no retry, including the no-match case); and when Google Books
times out on both attempts while OpenBD yields data, the handler returns
OpenBD's data with Google Books attempted exactly twice. -/
theorem C6_provider_timeout_and_retry_policy :
    TIMEOUT_MS = 3000 ∧ MAX_RETRIES = 1 ∧
    (∀ (isbn : String) (gAtt : Nat → FetchOutcome GoogleResp),
      gAtt 0 = .fail → gAtt 1 = .fail →
      fetchFromGoogleBooks isbn gAtt = (none, 2)) ∧
    (∀ (isbn : String) (gAtt : Nat → FetchOutcome GoogleResp) (resp : GoogleResp),
      gAtt 0 = .ok resp → (fetchFromGoogleBooks isbn gAtt).2 = 1) ∧
    (∀ (rawIsbn mode : String) (catalog : List CatalogEntry)
       (gAtt : Nat → FetchOutcome GoogleResp)
       (oAtt : Nat → FetchOutcome OpenBDResp) (b : BookData),
      rawIsbn ≠ "" → mode ≠ "inventory" →
      gAtt 0 = .fail → gAtt 1 = .fail →
      (fetchFromOpenBD (normalizeIsbn rawIsbn) oAtt).1 = some b →
      booksGET rawIsbn mode catalog gAtt oAtt =
        (.found b, 2, (fetchFromOpenBD (normalizeIsbn rawIsbn) oAtt).2)) := by
  refine ⟨rfl, rfl, ?_, ?_, ?_⟩
  · intro isbn gAtt h0 h1
    exact fetchFromGoogleBooks_exhausted isbn gAtt h0 h1
  · intro isbn gAtt resp h0
    rw [fetchFromGoogleBooks_snd isbn gAtt, fetchWithRetry_first_ok gAtt resp h0]
  · intro rawIsbn mode catalog gAtt oAtt b hI hm h0 h1 hob
    have hg : fetchFromGoogleBooks (normalizeIsbn rawIsbn) gAtt = (none, 2) :=
      fetchFromGoogleBooks_exhausted (normalizeIsbn rawIsbn) gAtt h0 h1
    have ho : fetchFromOpenBD (normalizeIsbn rawIsbn) oAtt =
        (some b, (fetchFromOpenBD (normalizeIsbn rawIsbn) oAtt).2) := by
      rw [← hob]
    rw [booksGET_discovery rawIsbn mode catalog gAtt oAtt hI hm]
    unfold booksDiscovery
    rw [hg, ho]

/-- Witness for C6: Google Books times out twice, OpenBD succeeds on its
first attempt; the handler returns OpenBD's data with attempt counts
(2, 1). -/
theorem C6_provider_timeout_and_retry_policy_witness :
    booksGET "9784065199810" "" []
        (fun _ => .fail)
        (fun _ =>
          .ok { ok := true
                entries := [some { title := "T", author := "",
                                   pubdate := "2020", cover := "u" }] }) =
      (.found { isbn := "9784065199810", title := "T", authors := ["著者不明"],
                publishedDate := "2020", thumbnailUrl := "u",
                source := .openBD },
       2, 1) := by
  have h := (C6_provider_timeout_and_retry_policy).2.2.2.2 "9784065199810" "" []
    (fun _ => .fail)
    (fun _ =>
      .ok { ok := true
            entries := [some { title := "T", author := "",
                               pubdate := "2020", cover := "u" }] })
    { isbn := "9784065199810", title := "T", authors := ["著者不明"],
      publishedDate := "2020", thumbnailUrl := "u", source := .openBD }
    (by decide) (by decide) rfl rfl (by decide)
  rw [h]
  decide

/- ===== Identifier-normalization lemmas ===== -/

/-- C7 as frozen is refuted here: the two separator-spellings normalize to
the same identifier, yet `register` (whose duplicate check compares the
request isbn verbatim) accepts the hyphenated spelling as a brand-new
catalog entry next to the bare one — the two spellings do not denote the
same catalog entry. -/
theorem C7_register_key_not_normalized_cex :
    normalizeIsbn "978-4-065-19981-0" = normalizeIsbn "9784065199810" ∧
    (register
      [{ id := "c-1", isbn := "9784065199810", title := "T",
         authors := "A", publishedDate := "2020", image := "u",
         status := "available", registeredAt := "t0" }]
      "978-4-065-19981-0" "T" (.str "A") "2020" "u" "c-2" "t1").2 =
      .ok { id := "c-2", isbn := "978-4-065-19981-0", title := "T",
            authors := "A", publishedDate := "2020", image := "u",
            status := "available", registeredAt := "t1" } ∧
    (register
      [{ id := "c-1", isbn := "9784065199810", title := "T",
         authors := "A", publishedDate := "2020", image := "u",
         status := "available", registeredAt := "t0" }]
      "978-4-065-19981-0" "T" (.str "A") "2020" "u" "c-2" "t1").1.length = 2 := by
  refine ⟨by decide, rfl, rfl⟩

/-- C7 amended: stripping every character that is not a decimal digit or
`X` happens only in the metadata-resolution GET, before the
catalog-confirmation lookup and before the provider chain; `register`'s
duplicate check and `returnItem`'s open-loan matching compare the request
isbn verbatim, so separator-spellings are distinct keys there. -/
theorem C7_normalization_only_in_resolver
    (rawIsbn : String) (catalog : List CatalogEntry)
    (gAtt : Nat → FetchOutcome GoogleResp) (oAtt : Nat → FetchOutcome OpenBDResp)
    (hI : rawIsbn ≠ "") :
    (booksGET rawIsbn "inventory" catalog gAtt oAtt =
      (match fetchFromInventory (normalizeIsbn rawIsbn) catalog with
       | some b => (.found b, 0, 0)
       | none => (.notInInventory, 0, 0))) ∧
    (∀ mode : String, mode ≠ "inventory" →
      booksGET rawIsbn mode catalog gAtt oAtt =
        booksDiscovery (normalizeIsbn rawIsbn) gAtt oAtt) ∧
    (∀ isbn title : String, ∀ authors : JsonStrOrArr,
     ∀ publishedDate thumbnailUrl newId registeredAt : String,
      isbn ≠ "" → title ≠ "" → (∀ e ∈ catalog, e.isbn ≠ isbn) →
      ∃ e : CatalogEntry,
        (register catalog isbn title authors publishedDate thumbnailUrl newId
            registeredAt).2 = .ok e ∧
        (register catalog isbn title authors publishedDate thumbnailUrl newId
            registeredAt).1 = catalog ++ [e] ∧ e.isbn = isbn) ∧
    (∀ (ledger : List LoanRecord) (isbn : String) (today : CDate) (wc : Bool)
       (ch : ChannelOutcome), isbn ≠ "" →
      (∀ r ∈ ledger, r.isbn ≠ isbn) →
      returnItem ledger isbn today wc ch =
        ⟨ledger, .error .notLent, .notAttempted⟩) := by
  refine ⟨?_, ?_, ?_, ?_⟩
  · unfold booksGET
    rw [if_neg hI, if_pos rfl]
  · intro mode hm
    exact booksGET_discovery rawIsbn mode catalog gAtt oAtt hI hm
  · intro isbn title authors publishedDate thumbnailUrl newId registeredAt
      hIs hT hclean
    have hnodup : catalog.any (fun row => row.isbn == isbn) = false := by
      rw [List.any_eq_false]
      intro e he
      simp [hclean e he]
    have hreg : register catalog isbn title authors publishedDate thumbnailUrl newId
        registeredAt =
        (catalog ++ [{ id := newId, isbn := isbn, title := title,
                       authors := joinAuthors authors,
                       publishedDate := publishedDate, image := thumbnailUrl,
                       status := "available", registeredAt := registeredAt }],
         .ok { id := newId, isbn := isbn, title := title,
               authors := joinAuthors authors,
               publishedDate := publishedDate, image := thumbnailUrl,
               status := "available", registeredAt := registeredAt }) := by
      unfold register
      rw [if_neg (by simp [hIs, hT]), if_neg (by simp [hnodup])]
    exact ⟨_, by rw [hreg], by rw [hreg], rfl⟩
  · intro ledger isbn today wc ch hIs hclean
    have hnone : findLastOpen ledger isbn = none := by
      rw [findLastOpen_eq_none]
      intro r hr
      unfold isOpenFor
      simp [hclean r hr]
    unfold returnItem
    rw [if_neg hIs, hnone]

/-- Witness for the amended C7, at the counterexample's spellings: the
resolver normalizes `978-4-065-19981-0` for its lookups, while `register`
accepts it beside the bare spelling and `returnItem` does not match the
bare spelling's open loan. -/
theorem C7_normalization_only_in_resolver_witness :
    (booksGET "978-4-065-19981-0" "inventory"
        [{ id := "c-1", isbn := "9784065199810", title := "T",
           authors := "A", publishedDate := "2020", image := "u",
           status := "available", registeredAt := "t0" }]
        (fun _ => .fail) (fun _ => .fail) =
      (match fetchFromInventory (normalizeIsbn "978-4-065-19981-0")
          [{ id := "c-1", isbn := "9784065199810", title := "T",
             authors := "A", publishedDate := "2020", image := "u",
             status := "available", registeredAt := "t0" }] with
       | some b => (.found b, 0, 0)
       | none => (.notInInventory, 0, 0))) ∧
    (∃ e : CatalogEntry,
      (register
        [{ id := "c-1", isbn := "9784065199810", title := "T",
           authors := "A", publishedDate := "2020", image := "u",
           status := "available", registeredAt := "t0" }]
        "978-4-065-19981-0" "T" (.str "A") "2020" "u" "c-2" "t1").2 = .ok e ∧
      (register
        [{ id := "c-1", isbn := "9784065199810", title := "T",
           authors := "A", publishedDate := "2020", image := "u",
           status := "available", registeredAt := "t0" }]
        "978-4-065-19981-0" "T" (.str "A") "2020" "u" "c-2" "t1").1 =
        [{ id := "c-1", isbn := "9784065199810", title := "T",
           authors := "A", publishedDate := "2020", image := "u",
           status := "available", registeredAt := "t0" }] ++ [e] ∧
      e.isbn = "978-4-065-19981-0") ∧
    returnItem
        [{ id := "id-1", isbn := "9784065199810", title := "T",
           borrowedAt := "2026-01-01", dueAt := "2026-01-15",
           borrowerName := "Alice", borrowerEmail := "a@example.com",
           borrowerGroup := "Eng", returnedAt := "" }]
        "978-4-065-19981-0" ⟨2026, 1, 5⟩ true .delivered =
      ⟨[{ id := "id-1", isbn := "9784065199810", title := "T",
          borrowedAt := "2026-01-01", dueAt := "2026-01-15",
          borrowerName := "Alice", borrowerEmail := "a@example.com",
          borrowerGroup := "Eng", returnedAt := "" }],
       .error .notLent, .notAttempted⟩ := by
  have h := C7_normalization_only_in_resolver "978-4-065-19981-0"
    [{ id := "c-1", isbn := "9784065199810", title := "T",
       authors := "A", publishedDate := "2020", image := "u",
       status := "available", registeredAt := "t0" }]
    (fun _ => .fail) (fun _ => .fail) (by decide)
  refine ⟨h.1, ?_, ?_⟩
  · exact h.2.2.1 "978-4-065-19981-0" "T" (.str "A") "2020" "u" "c-2" "t1"
      (by decide) (by decide) (by decide)
  · exact h.2.2.2
      [{ id := "id-1", isbn := "9784065199810", title := "T",
         borrowedAt := "2026-01-01", dueAt := "2026-01-15",
         borrowerName := "Alice", borrowerEmail := "a@example.com",
         borrowerGroup := "Eng", returnedAt := "" }]
      "978-4-065-19981-0" ⟨2026, 1, 5⟩ true .delivered
      (by decide) (by decide)

end Zousho
